import Mathlib

/-!
Verification development for the ralph-cli iteration/run engine.

The definitions below are a shallow embedding of the Rust sources:
  * `src/commands/run.rs` — the run engine (`run_run`, `handle_archive`,
    `init_progress_file`, `determine_tool`, `run_agent_iteration`,
    `colorize_output`);
  * `src/agent.rs` — agent detection (`Agent`, `detect_agents`);
  * `src/config.rs` — the `Config` record;
  * `src/prd.rs` — the task list (`Prd`, `UserStory`) and its counters.

File-system state touched by the engine (the run directory's
`prd.json`, `progress.txt`, `.last-branch` and the `archive/`
subdirectory) is modelled explicitly as the record `RalphDir`; ambient
inputs (`Local::now()` dates and timestamps, binary presence on PATH,
per-iteration child behaviour, the shared cancellation flag) are passed
as parameters.
-/

namespace Ralph

/-! ### String helpers mirroring the Rust `str` methods used by the engine -/

/-- Model of Rust `str::trim`: drop leading and trailing whitespace. -/
def rustTrim (s : String) : String :=
  ⟨((s.data.dropWhile Char.isWhitespace).reverse.dropWhile Char.isWhitespace).reverse⟩

/-- Substring search on character lists (helper for `rustContains`). -/
def containsSubAux (needle : List Char) : List Char → Bool
  | [] => needle.isEmpty
  | c :: rest => List.isPrefixOf needle (c :: rest) || containsSubAux needle rest

/-- Model of Rust `str::contains(&str)`: substring containment. -/
def rustContains (s pat : String) : Bool :=
  containsSubAux pat.data s.data

/-- Model of Rust `str::contains(char)`. -/
def rustContainsChar (s : String) (c : Char) : Bool :=
  s.data.contains c

/-- Model of `last_branch.strip_prefix("ralph/").unwrap_or(last_branch)`
(`run.rs:236`): the branch identifier with a leading `"ralph/"` removed. -/
def branchTail (s : String) : String :=
  if List.isPrefixOf "ralph/".data s.data then ⟨s.data.drop 6⟩ else s

/-! ### Task list (`src/prd.rs`) -/

/-- `UserStory` from `src/prd.rs`. -/
structure UserStory where
  id : String
  title : String
  description : String
  acceptanceCriteria : List String
  priority : Nat
  passes : Bool
  notes : String
deriving DecidableEq, Repr

/-- `Prd` from `src/prd.rs`. -/
structure Prd where
  project : String
  branch_name : String
  description : String
  user_stories : List UserStory
deriving DecidableEq, Repr

/-- `Prd::total_stories`. -/
def Prd.total_stories (p : Prd) : Nat :=
  p.user_stories.length

/-- `Prd::completed_stories`: stories whose `passes` field is set. -/
def Prd.completed_stories (p : Prd) : Nat :=
  (p.user_stories.filter (fun s => s.passes)).length

/-- `Prd::pending_stories`: stories whose `passes` field is unset. -/
def Prd.pending_stories (p : Prd) : Nat :=
  (p.user_stories.filter (fun s => !s.passes)).length

/-! ### Configuration (`src/config.rs`) -/

/-- `Config` from `src/config.rs`. -/
structure Config where
  default_tool : Option String
  max_iterations : Option Nat
  auto_archive : Option Bool
deriving DecidableEq, Repr

/-! ### Agent detection (`src/agent.rs`) -/

/-- `Agent` from `src/agent.rs`. -/
inductive Agent
  | amp
  | claude
  | codebuddy
deriving DecidableEq, Repr

/-- `Agent::command`. -/
def Agent.command : Agent → String
  | .amp => "amp"
  | .claude => "claude"
  | .codebuddy => "codebuddy"

/-- `detect_agents` from `src/agent.rs`: filter the fixed candidate list
`[Amp, Claude, CodeBuddy]` by presence of the binary.  Presence on PATH
(`is_command_available`) is modelled by the oracle `avail`. -/
def detect_agents (avail : String → Bool) : List Agent :=
  [Agent.amp, Agent.claude, Agent.codebuddy].filter (fun a => avail a.command)

/-- The error message at `run.rs:298` and `run.rs:309`. -/
def noAgentMsg : String :=
  "No AI agent CLI detected. Please install Amp, Claude Code, or CodeBuddy."

/-- `determine_tool` from `run.rs:283-319`. -/
def determine_tool (avail : String → Bool) (tool : String) (config : Config) :
    Except String String :=
  if tool = "auto" then
    match config.default_tool with
    | some dflt =>
      if avail dflt then Except.ok dflt
      else
        match (detect_agents avail).head? with
        | some first => Except.ok first.command
        | none => Except.error noAgentMsg
    | none =>
      match (detect_agents avail).head? with
      | some first => Except.ok first.command
      | none => Except.error noAgentMsg
  else if tool = "amp" then Except.ok "amp"
  else if tool = "claude" then Except.ok "claude"
  else if tool = "codebuddy" then Except.ok "codebuddy"
  else Except.ok tool

/-- Written from the spec's words for claim C7: "the first present agent
binary in the fixed priority order amp, claude, codebuddy". -/
def firstPresentAgent (avail : String → Bool) : Option String :=
  if avail "amp" then some "amp"
  else if avail "claude" then some "claude"
  else if avail "codebuddy" then some "codebuddy"
  else none

/-! ### Output line classification (`run.rs:449-462`) -/

/-- The completion marker scanned for at `run.rs:407`. -/
def completionMarker : String := "<promise>COMPLETE</promise>"

/-- The styling applied by `colorize_output` to a line. -/
inductive LineClass
  | error
  | warning
  | success
  | completeMarker
  | plain
deriving DecidableEq, Repr

/-- The error-vocabulary test at `run.rs:451`. -/
def errMatch (line : String) : Bool :=
  rustContains line "Error" || rustContains line "error" || rustContains line "ERROR"

/-- The warning-vocabulary test at `run.rs:453`. -/
def warnMatch (line : String) : Bool :=
  rustContains line "Warning" || rustContains line "warning" || rustContains line "WARNING"

/-- The success-vocabulary test at `run.rs:455`. -/
def successMatch (line : String) : Bool :=
  rustContains line "Success" || rustContains line "success" || rustContainsChar line '✓'

/-- `colorize_output` from `run.rs:449-462`.  The Rust function returns the
line wrapped in ANSI styling; we model the styled string as the pair of the
chosen style and the unmodified line content. -/
def colorize_output (line : String) : LineClass × String :=
  if errMatch line then (LineClass.error, line)
  else if warnMatch line then (LineClass.warning, line)
  else if successMatch line then (LineClass.success, line)
  else if rustContains line completionMarker then (LineClass.completeMarker, line)
  else (LineClass.plain, line)

/-- The classification component of `colorize_output`. -/
def classify (line : String) : LineClass :=
  (colorize_output line).1

/-! ### Stream multiplexer (`run_agent_iteration`, `run.rs:395-428`)

The Rust loop repeatedly checks the cancellation flag, then races
`stdout_reader.next_line()` against `stderr_reader.next_line()` in a
`tokio::select!`.  We model the race's nondeterministic choice by an
explicit schedule: a list of picks saying which branch resolves first at
each round.  A pick of an already-exhausted stream corresponds to its
`next_line()` resolving with `Ok(None)`. -/

/-- Which `select!` branch resolves at a given round. -/
inductive Pick
  | pout
  | perr
deriving DecidableEq, Repr

/-- State of the multiplexer loop: the lines still buffered in each pipe,
the lines forwarded so far on each channel, and the completion flag. -/
structure MuxState where
  out : List String
  err : List String
  printedOut : List (LineClass × String)
  printedErr : List String
  foundComplete : Bool
deriving DecidableEq, Repr

/-- The `Ok(Some(line))` stdout branch at `run.rs:405-412`: set the
completion flag when the line contains the marker, then forward the
colorized line. -/
def stdout_line_step (s : MuxState) (line : String) (more : List String) : MuxState :=
  { s with
    out := more
    foundComplete := s.foundComplete || rustContains line completionMarker
    printedOut := s.printedOut ++ [colorize_output line] }

/-- The `Ok(Some(line))` stderr branch at `run.rs:419-422`: forward the
line on the error channel. -/
def stderr_line_step (s : MuxState) (line : String) (more : List String) : MuxState :=
  { s with
    err := more
    printedErr := s.printedErr ++ [line] }

/-- The `loop` at `run.rs:395-428` under schedule `picks`.  The returned
Bool is `true` iff the loop terminated via one of its `break`s
(cancellation at the loop head, or `Ok(None)` end-of-stream on the picked
branch); `false` means the schedule ran out first (a model artifact, not a
behaviour of the code).  The cancellation flag is modelled as the constant
`running` sampled at the loop head. -/
def mux_run (running : Bool) : List Pick → MuxState → MuxState × Bool
  | [], s => (s, false)
  | pick :: rest, s =>
    if running = false then (s, true)
    else
      match pick with
      | Pick.pout =>
        match s.out with
        | line :: more => mux_run running rest (stdout_line_step s line more)
        | [] => (s, true)
      | Pick.perr =>
        match s.err with
        | line :: more => mux_run running rest (stderr_line_step s line more)
        | [] => (s, true)

/-! ### Run directory state (`run.rs:224-280`)

`RalphDir` models the on-disk files the engine touches inside the
directory containing `prd.json`: `.last-branch`, `prd.json`,
`progress.txt` (each `none` when absent) and the `archive/`
subdirectory, an association list from archive folder name to its
snapshot contents. -/

/-- Contents of one dated archive folder. -/
structure ArchiveSnapshot where
  prdJson : Option String
  progressTxt : Option String
deriving DecidableEq, Repr

/-- The run directory's files. -/
structure RalphDir where
  lastBranch : Option String
  prdJson : Option String
  progressTxt : Option String
  archive : List (String × ArchiveSnapshot)
deriving DecidableEq, Repr

/-- `fs::create_dir_all` on the archive folder followed by the two
conditional `fs::copy` calls (`run.rs:245-257`): each file is copied into
the folder only when the source exists, overwriting any previous copy of
that file; a pre-existing folder keeps files that are not overwritten. -/
def copyIntoArchive (name : String) (prdSrc progressSrc : Option String) :
    List (String × ArchiveSnapshot) → List (String × ArchiveSnapshot)
  | [] => [(name, { prdJson := prdSrc, progressTxt := progressSrc })]
  | (n, snap) :: rest =>
    if n = name then
      (n, { prdJson := prdSrc.elim snap.prdJson some
            progressTxt := progressSrc.elim snap.progressTxt some }) :: rest
    else (n, snap) :: copyIntoArchive name prdSrc progressSrc rest

/-- The fresh progress-log header written at `run.rs:273-276`. -/
def progressHeader (ts : String) : String :=
  "# Ralph Progress Log\nStarted: " ++ ts ++ "\n---\n"

/-- `init_progress_file` from `run.rs:271-280`: write the header only when
the file does not exist.  The `Local::now()` timestamp is the parameter
`ts`. -/
def init_progress_file (ts : String) (d : RalphDir) : RalphDir :=
  match d.progressTxt with
  | some _ => d
  | none => { d with progressTxt := some (progressHeader ts) }

/-- `handle_archive` from `run.rs:224-268`.  The `Local::now()` date is the
parameter `date`; `ts` is the timestamp used by the nested
`init_progress_file` call. -/
def handle_archive (date ts : String) (ralph_dir : RalphDir) (prd : Prd) : RalphDir :=
  let current_branch := prd.branch_name
  let d :=
    match ralph_dir.lastBranch with
    | none => ralph_dir
    | some content =>
      let last_branch := rustTrim content
      if ¬ last_branch = "" ∧ ¬ last_branch = current_branch then
        let folder_name := branchTail last_branch
        let archive_name := date ++ "-" ++ folder_name
        let d1 := { ralph_dir with
          archive := copyIntoArchive archive_name ralph_dir.prdJson
            ralph_dir.progressTxt ralph_dir.archive }
        init_progress_file ts d1
      else ralph_dir
  { d with lastBranch := some current_branch }

/-! ### Iteration loop (`run_run`, `run.rs:94-221`) -/

/-- Outcome of the `while` loop at `run.rs:172-193`: the final value of
`current_iteration`, the number of `run_agent_iteration` calls actually
made (each spawns exactly one child process), and the `completed` flag
that triggered the `break`. -/
structure LoopResult where
  finalIter : Nat
  itersRun : Nat
  foundComplete : Bool
deriving DecidableEq, Repr

/-- The `while` loop at `run.rs:172-193`, structurally recursive on a fuel
counter.  `running i` is the cancellation flag as sampled at the loop head
of iteration `i`; `completes i` is whether iteration `i`'s child output
contained the completion marker.  `runLoop` supplies enough fuel that the
fuel never runs out while the loop condition holds. -/
def runLoopGo (max_iter : Nat) (running completes : Nat → Bool) :
    Nat → Nat → LoopResult
  | 0, i => { finalIter := i, itersRun := 0, foundComplete := false }
  | fuel + 1, i =>
    if i ≤ max_iter ∧ running i = true then
      if completes i then
        { finalIter := i, itersRun := 1, foundComplete := true }
      else
        let r := runLoopGo max_iter running completes fuel (i + 1)
        { r with itersRun := r.itersRun + 1 }
    else { finalIter := i, itersRun := 0, foundComplete := false }

/-- The loop entered with `current_iteration = 1` (`run.rs:172`). -/
def runLoop (max_iter : Nat) (running completes : Nat → Bool) : LoopResult :=
  runLoopGo max_iter running completes (max_iter + 1) 1

/-- The observable outcome of one `run_run` invocation. -/
structure RunResult where
  max_iter : Nat
  early : Bool
  spawns : Nat
  loop : LoopResult
  displayedIterations : Nat
  dir : RalphDir
deriving DecidableEq, Repr

/-- `run_run` from `run.rs:94-221`, restricted to the run engine proper:
the iteration-budget computation (line 103), the all-stories-complete
short-circuit (lines 147-150), archival reconciliation (line 153),
progress-file initialization (line 157), the iteration loop (lines
172-193) and the summary's iteration count `(current_iteration - 1)
.min(max_iter)` (line 202).  Interactive migration, the existence and
load-error paths, tool resolution (modelled separately by
`determine_tool`) and printing are outside the model.  `early` records
the `return` at line 149; in that case no directory write and no spawn
happens and `loop` is the untouched initial state. -/
def run_run (date ts : String) (max_iterations : Option Nat) (config : Config)
    (prd : Prd) (dir : RalphDir) (running completes : Nat → Bool) : RunResult :=
  let max_iter := (max_iterations.or config.max_iterations).getD 10
  if prd.pending_stories == 0 then
    { max_iter := max_iter
      early := true
      spawns := 0
      loop := { finalIter := 1, itersRun := 0, foundComplete := false }
      displayedIterations := 0
      dir := dir }
  else
    let d1 := handle_archive date ts dir prd
    let d2 := init_progress_file ts d1
    let lr := runLoop max_iter running completes
    { max_iter := max_iter
      early := false
      spawns := lr.itersRun
      loop := lr
      displayedIterations := min (lr.finalIter - 1) max_iter
      dir := d2 }

/-- Which terminal condition the summary reports (`run.rs:214-218`). -/
inductive RunEnd
  | interrupted
  | exhausted
  | completedSignal
deriving DecidableEq, Repr

/-- The terminal-condition check at `run.rs:214-218`: `interrupted` when
the flag reads false at summary time (modelled by sampling `running` at
the loop's final iteration index), `exhausted` when `current_iteration >
max_iter`, and otherwise the loop broke on the completion signal
(reported earlier by the line at `run.rs:188`). -/
def run_terminal (running : Nat → Bool) (r : RunResult) : RunEnd :=
  if running r.loop.finalIter = false then RunEnd.interrupted
  else if r.max_iter < r.loop.finalIter then RunEnd.exhausted
  else RunEnd.completedSignal

/-! ### Concrete fixtures used by witnesses and counterexamples -/

/-- A configuration with nothing set. -/
def cfg0 : Config :=
  { default_tool := none, max_iterations := none, auto_archive := none }

/-- An empty run directory. -/
def dir0 : RalphDir :=
  { lastBranch := none, prdJson := none, progressTxt := none, archive := [] }

/-- A single not-yet-passing story. -/
def storyPending : UserStory :=
  { id := "US-1", title := "t", description := "d", acceptanceCriteria := [],
    priority := 1, passes := false, notes := "" }

/-- A single passing story. -/
def storyDone : UserStory :=
  { id := "US-1", title := "t", description := "d", acceptanceCriteria := [],
    priority := 1, passes := true, notes := "" }

/-- A task list on branch `"ralph/new"` with one pending story. -/
def prdRalphNew : Prd :=
  { project := "p", branch_name := "ralph/new", description := "",
    user_stories := [storyPending] }

/-- A task list on branch `"b"` with one pending story. -/
def prdB : Prd :=
  { project := "p", branch_name := "b", description := "",
    user_stories := [storyPending] }

/-- A task list on branch `"Y"` whose stories all pass. -/
def prdAllDoneY : Prd :=
  { project := "p", branch_name := "Y", description := "",
    user_stories := [storyDone] }

/-- A run directory recording previous branch `"ralph/old"`, with both a
task-list file and a progress log present. -/
def dirRalphOld : RalphDir :=
  { lastBranch := some "ralph/old", prdJson := some "PRDOLD",
    progressTxt := some "OLDLOG", archive := [] }

/-- A run directory recording previous branch `"X"`. -/
def dirX : RalphDir :=
  { lastBranch := some "X", prdJson := none, progressTxt := none, archive := [] }

/-- A run directory whose branch record is `"b "` (trailing space). -/
def dirBSpace : RalphDir :=
  { lastBranch := some "b ", prdJson := some "P", progressTxt := some "L",
    archive := [] }

/-- A task list on branch `"b "` (trailing space) with one pending story. -/
def prdBSpace : Prd :=
  { project := "p", branch_name := "b ", description := "",
    user_stories := [storyPending] }

/-- A multiplexer state whose stdout pipe is exhausted while a stderr
line is still buffered. -/
def muxErrLeft : MuxState :=
  { out := [], err := ["leftover"], printedOut := [], printedErr := [],
    foundComplete := false }

/-- A multiplexer state with both pipes exhausted. -/
def muxEmpty : MuxState :=
  { out := [], err := [], printedOut := [], printedErr := [],
    foundComplete := false }

/-- A task list on branch `"X"` with one pending story. -/
def prdX : Prd :=
  { project := "p", branch_name := "X", description := "",
    user_stories := [storyPending] }

/-- A presence oracle under which only `claude` is installed. -/
def availClaudeOnly : String → Bool := fun s => s == "claude"

/-- A configuration whose default tool is `claude`. -/
def cfgDefaultClaude : Config :=
  { default_tool := some "claude", max_iterations := none, auto_archive := none }

/-! ### Helper lemmas -/

theorem init_progress_lastBranch (ts : String) (d : RalphDir) :
    (init_progress_file ts d).lastBranch = d.lastBranch := by
  cases h : d.progressTxt <;> simp [init_progress_file, h]

theorem handle_archive_lastBranch (date ts : String) (d : RalphDir) (prd : Prd) :
    (handle_archive date ts d prd).lastBranch = some prd.branch_name := rfl

theorem runLoopGo_no_complete (m : Nat) :
    ∀ fuel i, i + fuel = m + 2 → i ≤ m + 1 →
      runLoopGo m (fun _ => true) (fun _ => false) fuel i =
        { finalIter := m + 1, itersRun := m + 1 - i, foundComplete := false } := by
  intro fuel
  induction fuel with
  | zero => intro i h1 h2; omega
  | succ fuel ih =>
    intro i h1 h2
    unfold runLoopGo
    by_cases hi : i ≤ m
    · have hrec := ih (i + 1) (by omega) (by omega)
      rw [if_pos ⟨hi, rfl⟩, if_neg (by simp), hrec]
      have heq : m + 1 - (i + 1) + 1 = m + 1 - i := by omega
      simp only [heq]
    · have h0 : m + 1 - i = 0 := by omega
      have hieq : i = m + 1 := by omega
      rw [if_neg (by omega), h0, hieq]

theorem runLoop_no_complete (m : Nat) :
    runLoop m (fun _ => true) (fun _ => false) =
      { finalIter := m + 1, itersRun := m, foundComplete := false } := by
  have h := runLoopGo_no_complete m (m + 1) 1 (by omega) (by omega)
  simpa [runLoop] using h

theorem detect_head_firstPresent (avail : String → Bool) :
    ((detect_agents avail).head?.map Agent.command) = firstPresentAgent avail := by
  cases ha : avail "amp" <;> cases hc : avail "claude" <;> cases hb : avail "codebuddy" <;>
    simp [detect_agents, firstPresentAgent, Agent.command, ha, hc, hb, List.filter]

/-! ### Claims -/

/-- Claim C1 (code bug): on a detected branch switch, `handle_archive`
does copy `prd.json` and `progress.txt` into the dated archive folder,
but it does NOT reset the run directory's `progress.txt` to the fresh
header: `fs::copy` leaves the original in place, so the subsequent
`init_progress_file` call (which only writes when the file is absent)
is a no-op, contradicting the code's own comment "Reset progress file
for new run" at `run.rs:259` and the spec.  Evaluated here at the
failing input: previous branch `"ralph/old"`, current branch
`"ralph/new"`, old progress log `"OLDLOG"`. -/
theorem C1_branch_switch_progress_not_reset :
    (handle_archive "2026-10-12" "TS" dirRalphOld prdRalphNew).archive =
      [("2026-10-12-old", { prdJson := some "PRDOLD", progressTxt := some "OLDLOG" })]
    ∧ (handle_archive "2026-10-12" "TS" dirRalphOld prdRalphNew).progressTxt = some "OLDLOG"
    ∧ (handle_archive "2026-10-12" "TS" dirRalphOld prdRalphNew).progressTxt ≠
        some (progressHeader "TS") := by
  decide

/-- Claim C2 counterexample: with a budget of 10 and the completion
marker appearing during iteration 2, the run-summary iteration count is
`(current_iteration - 1).min(max_iter) = 1`, not 2 as the claim states
(`current_iteration` is not incremented when the loop breaks on
completion). -/
theorem C2_summary_reports_one_not_two :
    (run_run "D" "T" (some 10) cfg0 prdB dir0 (fun _ => true)
      (fun i => i == 2)).displayedIterations ≠ 2 := by
  decide

/-- Claim C2 (amended): with a budget of 10 and the completion marker
appearing during iteration 2, the loop stops after iteration 2 (exactly
two iterations attempted), the run reports completion, and the summary's
iteration line reports 1. -/
theorem C2_completion_stops_after_iteration_two :
    (run_run "D" "T" (some 10) cfg0 prdB dir0 (fun _ => true)
        (fun i => i == 2)).loop.itersRun = 2
    ∧ (run_run "D" "T" (some 10) cfg0 prdB dir0 (fun _ => true)
        (fun i => i == 2)).loop.foundComplete = true
    ∧ (run_run "D" "T" (some 10) cfg0 prdB dir0 (fun _ => true)
        (fun i => i == 2)).displayedIterations = 1
    ∧ run_terminal (fun _ => true)
        (run_run "D" "T" (some 10) cfg0 prdB dir0 (fun _ => true)
          (fun i => i == 2)) = RunEnd.completedSignal := by
  decide

/-- Claim C3 counterexample: when the stdout pipe is at end-of-stream
while a stderr line is still buffered, a race round that resolves the
stdout branch (`Ok(None)`) breaks the whole loop: the multiplexer ends
with the stderr line never forwarded, contradicting "the loop continues
servicing the other pipe until it too is exhausted". -/
theorem C3_eof_on_stdout_abandons_stderr :
    (mux_run true [Pick.pout] muxErrLeft).2 = true
    ∧ (mux_run true [Pick.pout] muxErrLeft).1.printedErr = []
    ∧ (mux_run true [Pick.pout] muxErrLeft).1.err = ["leftover"] := by
  decide

/-- Claim C3 (amended): end-of-stream on either pipe ends the entire
race loop (`Ok(None) => break`), not just that side: whatever the rest
of the schedule, a round that resolves an exhausted branch terminates
the loop immediately, leaving any still-buffered lines of the other
stream unserviced. -/
theorem C3_eof_breaks_whole_loop (s : MuxState) (rest : List Pick) :
    (s.out = [] → mux_run true (Pick.pout :: rest) s = (s, true))
    ∧ (s.err = [] → mux_run true (Pick.perr :: rest) s = (s, true)) := by
  constructor
  · intro h; simp [mux_run, h]
  · intro h; simp [mux_run, h]

/-- Witness for C3 (amended) at a concrete state. -/
theorem C3_eof_breaks_whole_loop_witness :
    mux_run true [Pick.pout] muxEmpty = (muxEmpty, true) :=
  (C3_eof_breaks_whole_loop muxEmpty []).1 rfl

/-- Claim C4 counterexample: a run whose task list reports zero pending
items returns at `run.rs:149`, BEFORE `handle_archive`, so the
`.last-branch` record is not overwritten: starting from record `"X"`
and a task list on branch `"Y"` with all stories passing, the record
still holds `"X"` after the run. -/
theorem C4_zero_pending_skips_record_write :
    (run_run "D" "T" none cfg0 prdAllDoneY dirX (fun _ => true)
        (fun _ => false)).dir.lastBranch = some "X"
    ∧ prdAllDoneY.branch_name = "Y"
    ∧ (run_run "D" "T" none cfg0 prdAllDoneY dirX (fun _ => true)
        (fun _ => false)).dir.lastBranch ≠ some prdAllDoneY.branch_name := by
  decide

/-- Claim C4 (amended): every run that loads the task list AND reports
at least one pending item reaches reconciliation, which unconditionally
ends by overwriting the `.last-branch` record with the task list's
current branch; a zero-pending run returns before reconciliation and
leaves the record untouched. -/
theorem C4_record_written_when_pending (date ts : String) (mi : Option Nat)
    (cfg : Config) (prd : Prd) (d : RalphDir) (running completes : Nat → Bool)
    (h : prd.pending_stories ≠ 0) :
    (run_run date ts mi cfg prd d running completes).dir.lastBranch =
      some prd.branch_name := by
  have hb : (prd.pending_stories == 0) = false := by simpa using h
  simp [run_run, hb, init_progress_lastBranch, handle_archive_lastBranch]

/-- Witness for C4 (amended) at a concrete input. -/
theorem C4_record_written_when_pending_witness :
    (run_run "D" "T" none cfg0 prdB dirX (fun _ => true)
        (fun _ => false)).dir.lastBranch = some prdB.branch_name :=
  C4_record_written_when_pending "D" "T" none cfg0 prdB dirX
    (fun _ => true) (fun _ => false) (by decide)

/-- Claim C5 counterexample: classification is NOT case-insensitive: a
line containing `"eRror"` matches none of the three exact casings
`"Error"`/`"error"`/`"ERROR"` checked at `run.rs:451`, so it is left
plain rather than classified as an error line. -/
theorem C5_mixed_case_error_not_matched :
    classify "eRror" = LineClass.plain ∧ classify "eRror" ≠ LineClass.error := by
  decide

/-- Claim C5 (amended): classification is a substring match against the
three exact casings of each vocabulary word (error before warning before
success before the completion marker), the returned text carries the
original line content, and the multiplexer's completion flag is updated
solely by containment of the exact marker, independent of
classification. -/
theorem C5_exact_casing_classification (line : String) :
    (colorize_output line).2 = line
    ∧ (classify line = LineClass.error ↔ errMatch line = true)
    ∧ (classify line = LineClass.warning ↔
        (errMatch line = false ∧ warnMatch line = true))
    ∧ (classify line = LineClass.success ↔
        (errMatch line = false ∧ warnMatch line = false ∧ successMatch line = true))
    ∧ (classify line = LineClass.completeMarker ↔
        (errMatch line = false ∧ warnMatch line = false ∧ successMatch line = false
          ∧ rustContains line completionMarker = true))
    ∧ ∀ s more, (stdout_line_step s line more).foundComplete =
        (s.foundComplete || rustContains line completionMarker) := by
  cases hE : errMatch line <;> cases hW : warnMatch line <;>
    cases hS : successMatch line <;> cases hM : rustContains line completionMarker <;>
      simp [classify, colorize_output, stdout_line_step, hE, hW, hS, hM]

/-- Claim C6: for every budget `N ≥ 1`, if the cancellation flag is
never cleared and no iteration's output contains the completion marker,
the loop performs exactly `N` iterations, the summary reports `N`
iterations completed, and the run terminates in the exhausted state
("Maximum iterations reached"). -/
theorem C6_exhaustion (N : Nat) (hN : 1 ≤ N) (date ts : String) (cfg : Config)
    (prd : Prd) (d : RalphDir) (hp : prd.pending_stories ≠ 0) :
    (run_run date ts (some N) cfg prd d (fun _ => true)
        (fun _ => false)).loop.itersRun = N
    ∧ (run_run date ts (some N) cfg prd d (fun _ => true)
        (fun _ => false)).displayedIterations = N
    ∧ run_terminal (fun _ => true)
        (run_run date ts (some N) cfg prd d (fun _ => true)
          (fun _ => false)) = RunEnd.exhausted := by
  have hb : (prd.pending_stories == 0) = false := by simpa using hp
  have hl := runLoop_no_complete N
  refine ⟨?_, ?_, ?_⟩ <;>
    simp [run_run, run_terminal, hb, hl, Nat.lt_succ_self]

/-- Witness for C6 at `N = 3`. -/
theorem C6_exhaustion_witness :
    (run_run "D" "T" (some 3) cfg0 prdB dir0 (fun _ => true)
        (fun _ => false)).loop.itersRun = 3
    ∧ (run_run "D" "T" (some 3) cfg0 prdB dir0 (fun _ => true)
        (fun _ => false)).displayedIterations = 3
    ∧ run_terminal (fun _ => true)
        (run_run "D" "T" (some 3) cfg0 prdB dir0 (fun _ => true)
          (fun _ => false)) = RunEnd.exhausted :=
  C6_exhaustion 3 (by decide) "D" "T" cfg0 prdB dir0 (by decide)

/-- Claim C7: resolving the requested name `"auto"`: when the configured
default names a binary verified present, the resolved command is that
default; otherwise the resolved command is the first present agent
binary in the fixed priority order amp, claude, codebuddy, and if none
is present resolution fails with the "no agent detected" error. -/
theorem C7_auto_resolution (avail : String → Bool) (config : Config) :
    (∀ dflt, config.default_tool = some dflt → avail dflt = true →
        determine_tool avail "auto" config = Except.ok dflt)
    ∧ ((∀ dflt, config.default_tool = some dflt → avail dflt = false) →
        determine_tool avail "auto" config =
          match firstPresentAgent avail with
          | some c => Except.ok c
          | none => Except.error noAgentMsg) := by
  constructor
  · intro dflt hd ha
    simp [determine_tool, hd, ha]
  · intro h
    have hfp := detect_head_firstPresent avail
    rw [← hfp]
    cases hdt : config.default_tool with
    | none =>
      cases hh : (detect_agents avail).head? with
      | none => simp [determine_tool, hdt, hh]
      | some a => simp [determine_tool, hdt, hh]
    | some dflt =>
      have ha := h dflt hdt
      cases hh : (detect_agents avail).head? with
      | none => simp [determine_tool, hdt, ha, hh]
      | some a => simp [determine_tool, hdt, ha, hh]

/-- Witness for C7: with only `claude` installed and `claude` configured
as the default, `"auto"` resolves to `claude`. -/
theorem C7_auto_resolution_witness :
    determine_tool availClaudeOnly "auto" cfgDefaultClaude = Except.ok "claude" :=
  (C7_auto_resolution availClaudeOnly cfgDefaultClaude).1 "claude" rfl rfl

/-- Claim C8: a run whose task list reports zero pending items returns
immediately with a trivial success report: zero iterations attempted,
zero child processes spawned, and the run directory untouched. -/
theorem C8_zero_pending_immediate (date ts : String) (mi : Option Nat)
    (cfg : Config) (prd : Prd) (d : RalphDir) (running completes : Nat → Bool)
    (h : prd.pending_stories = 0) :
    (run_run date ts mi cfg prd d running completes).early = true
    ∧ (run_run date ts mi cfg prd d running completes).spawns = 0
    ∧ (run_run date ts mi cfg prd d running completes).loop.itersRun = 0
    ∧ (run_run date ts mi cfg prd d running completes).displayedIterations = 0
    ∧ (run_run date ts mi cfg prd d running completes).dir = d := by
  have hb : (prd.pending_stories == 0) = true := by simpa using h
  simp [run_run, hb]

/-- Witness for C8 at a concrete all-passing task list. -/
theorem C8_zero_pending_immediate_witness :
    (run_run "D" "T" none cfg0 prdAllDoneY dir0 (fun _ => true)
        (fun _ => false)).early = true
    ∧ (run_run "D" "T" none cfg0 prdAllDoneY dir0 (fun _ => true)
        (fun _ => false)).spawns = 0
    ∧ (run_run "D" "T" none cfg0 prdAllDoneY dir0 (fun _ => true)
        (fun _ => false)).loop.itersRun = 0
    ∧ (run_run "D" "T" none cfg0 prdAllDoneY dir0 (fun _ => true)
        (fun _ => false)).displayedIterations = 0
    ∧ (run_run "D" "T" none cfg0 prdAllDoneY dir0 (fun _ => true)
        (fun _ => false)).dir = dir0 :=
  C8_zero_pending_immediate "D" "T" none cfg0 prdAllDoneY dir0
    (fun _ => true) (fun _ => false) (by decide)

/-- Claim C9 counterexample: reconciliation is NOT idempotent for every
identifier: with `.last-branch` holding `B = "b "` (trailing space) and
the task list's current branch also `"b "`, the trimmed record `"b"`
differs from `"b "`, so a second reconciliation creates a new archive
folder and copies both files. -/
theorem C9_whitespace_identifier_rearchives :
    dirBSpace.lastBranch = some prdBSpace.branch_name
    ∧ (handle_archive "D" "T" dirBSpace prdBSpace).archive =
        [("D-b", { prdJson := some "P", progressTxt := some "L" })]
    ∧ (handle_archive "D" "T" dirBSpace prdBSpace).archive ≠ dirBSpace.archive := by
  decide

/-- Claim C9 (amended): for every branch identifier `B` without leading
or trailing whitespace (`trim B = B`), after `.last-branch` holds `B`,
reconciling again with current branch `B` creates no archive folder,
copies nothing, and leaves the record equal to `B`. -/
theorem C9_idempotent_when_trimmed (B date ts : String) (d : RalphDir) (prd : Prd)
    (hB : rustTrim B = B) (hd : d.lastBranch = some B) (hbr : prd.branch_name = B) :
    (handle_archive date ts d prd).archive = d.archive
    ∧ (handle_archive date ts d prd).progressTxt = d.progressTxt
    ∧ (handle_archive date ts d prd).prdJson = d.prdJson
    ∧ (handle_archive date ts d prd).lastBranch = some B := by
  have hcond : ¬ (¬ rustTrim B = "" ∧ ¬ rustTrim B = B) := by
    rw [hB]; simp
  simp [handle_archive, hd, hcond, hbr]

/-- Witness for C9 (amended) at `B = "X"`. -/
theorem C9_idempotent_when_trimmed_witness :
    (handle_archive "D" "T" dirX prdX).archive = dirX.archive
    ∧ (handle_archive "D" "T" dirX prdX).progressTxt = dirX.progressTxt
    ∧ (handle_archive "D" "T" dirX prdX).prdJson = dirX.prdJson
    ∧ (handle_archive "D" "T" dirX prdX).lastBranch = some "X" :=
  C9_idempotent_when_trimmed "X" "D" "T" dirX prdX (by decide) rfl rfl

/-- Claim C10: the iteration budget is
`max_iterations.or(config.max_iterations).unwrap_or(10)`: with neither
the explicit argument nor a configured value the budget is exactly 10,
and when both are present the explicit argument wins. -/
theorem C10_budget_default_and_override (date ts : String) (dt : Option String)
    (aa : Option Bool) (prd : Prd) (d : RalphDir) (running completes : Nat → Bool) :
    (run_run date ts none
        { default_tool := dt, max_iterations := none, auto_archive := aa }
        prd d running completes).max_iter = 10
    ∧ ∀ a b : Nat,
        (run_run date ts (some a)
          { default_tool := dt, max_iterations := some b, auto_archive := aa }
          prd d running completes).max_iter = a := by
  constructor
  · cases h : (prd.pending_stories == 0) <;> simp [run_run, h]
  · intro a b
    cases h : (prd.pending_stories == 0) <;> simp [run_run, h]

end Ralph
